import Mathlib

/-!
Verification development for the WiFi_Promiscuous repository.

We shallowly embed the claim-relevant parts of the Python sources:
  * `host/aggregator.py` — channel/frequency mapping, probe-line parsing,
    GPSD fix fusion, `latest_fix`, and the bounded fan-in queue policy;
  * `host/wifi_capture_service.py` — the capture-thread parse gate and
    its `freq_from_ch` helper;
  * `host/broker.py` — the live device tracker (window pruning, eviction,
    smoothed strength, LEFT/RIGHT/OMNI side classification);
  * `host/gps_services.py` — the gpspipe state updater;
  * `scripts/trilaterate.py` — the multilateration guard, the log-distance
    range model and the covariance-radius confidence mapping.

Machine floats are modelled by exact numbers: `ℚ` where the code only
compares and averages, `ℝ` where it uses transcendental functions
(`10 ** x`, `exp`).  Python `int` is `ℤ`.  Fallible parsing returns
`Option`.
-/

namespace WifiProm

/-! ### Channel → frequency mapping (`host/aggregator.py`, `CHANNEL_TO_FREQ`
and `freq_from_channel`). -/

/-- The fixed 2.4 GHz channel table `CHANNEL_TO_FREQ` of `aggregator.py`. -/
def CHANNEL_TO_FREQ (ch : ℤ) : Option ℤ :=
  if ch = 1 then some 2412 else if ch = 2 then some 2417
  else if ch = 3 then some 2422 else if ch = 4 then some 2427
  else if ch = 5 then some 2432 else if ch = 6 then some 2437
  else if ch = 7 then some 2442 else if ch = 8 then some 2447
  else if ch = 9 then some 2452 else if ch = 10 then some 2457
  else if ch = 11 then some 2462 else if ch = 12 then some 2467
  else if ch = 13 then some 2472 else if ch = 14 then some 2484
  else none

/-- `freq_from_channel` of `aggregator.py`:
`CHANNEL_TO_FREQ.get(ch, 2412 + 5 * (ch - 1) if ch > 0 else 2412)`. -/
def freq_from_channel (ch : ℤ) : ℤ :=
  match CHANNEL_TO_FREQ ch with
  | some f => f
  | none => if ch > 0 then 2412 + 5 * (ch - 1) else 2412

/-- `freq_from_ch` of `wifi_capture_service.py`: `2407 + 5*ch`. -/
def freq_from_ch (ch : ℤ) : ℤ := 2407 + 5 * ch

/-! ### The bounded fan-in queue (`queue.Queue(maxsize=queue_max)` together
with the `put(rec, block=False) / except queue.Full: pass` policy of
`ProbeReader.run` in `aggregator.py` and `db_queue.put_nowait` in
`wifi_capture_service.py`).  A queue is its list of pending items, oldest
first; a non-blocking put appends iff the queue is below capacity and
otherwise drops the new item, leaving the queue unchanged. -/

/-- Non-blocking push with drop-on-full, as performed by the probe readers. -/
def put_nowait {α : Type} (cap : ℕ) (q : List α) (x : α) : List α :=
  if q.length < cap then q ++ [x] else q

theorem put_nowait_length_le {α : Type} (cap : ℕ) (q : List α) (x : α)
    (h : q.length ≤ cap) : (put_nowait cap q x).length ≤ cap := by
  unfold put_nowait
  split
  · simpa using Nat.succ_le_of_lt (by assumption)
  · exact h

theorem foldl_put_nowait_length_le {α : Type} (cap : ℕ) (xs : List α) :
    ∀ q : List α, q.length ≤ cap →
      (xs.foldl (fun q x => put_nowait cap q x) q).length ≤ cap := by
  induction xs with
  | nil => intro q h; simpa using h
  | cons x xs ih =>
      intro q h
      exact ih _ (put_nowait_length_le cap q x h)

/-! ### `latest_fix` (`GPSDReader.latest_fix` and `GPSReader.latest_fix`
in `aggregator.py`; both bodies are identical). -/

/-- A GPS fix as held by the aggregator (`GPSFix` dataclass). -/
structure GPSFix where
  ts_utc : ℚ
  lat : Option ℚ
  lon : Option ℚ
  alt_m : Option ℚ
  speed_mps : Option ℚ
  track_deg : Option ℚ
  hdop : Option ℚ
  vdop : Option ℚ
  pps_locked : Bool
deriving Repr, DecidableEq

/-- `latest_fix`: returns `None` when there is no fix or when
`(time.time() - fix.ts_utc) * 1000.0 > max_fix_age_ms`; otherwise the fix. -/
def latest_fix (stored : Option GPSFix) (now max_fix_age_ms : ℚ) :
    Option GPSFix :=
  match stored with
  | none => none
  | some fix => if (now - fix.ts_utc) * 1000 > max_fix_age_ms then none else some fix

/-! ### Probe-line parsing (`ProbeReader._parse_line` in `aggregator.py`).

`_parse_line` first tries to read the line as a JSON object, then as a
7-field CSV line, and returns `None` when both fail.  We model the JSON
branch on the fragment where numeric fields are JSON integers (or absent)
and `bssid`/`ssid` are strings (or absent); on this fragment every `int()`
conversion succeeds and the branch always returns a record.  The CSV
branch is modelled field-wise, with `none` for an empty field; `int()` of
an empty channel field raises, which makes the branch (and the whole
parse) return `None`.  The Python falsy-`or` chains are modelled exactly,
including `str(freq_raw).strip().isdigit()`, which on an integer value is
true iff the value is nonnegative. -/

/-- The parsed probe record produced by `_parse_line` (the `dict(...)`
literal of `aggregator.py`). -/
structure ProbeRec where
  node_id : ℤ
  channel : ℤ
  frequency_mhz : ℤ
  bssid : String
  ssid : String
  rssi_dbm : ℤ
  beacon_interval_ms : Option ℤ
deriving Repr, DecidableEq

/-- A JSON probe line restricted to the keys `_parse_line` reads, with
integer-valued numeric fields.  `none` means the key is absent. -/
structure JLine where
  node : Option ℤ := none
  node_id : Option ℤ := none
  id : Option ℤ := none
  ch : Option ℤ := none
  chan : Option ℤ := none
  channel : Option ℤ := none
  freq : Option ℤ := none
  frequency_mhz : Option ℤ := none
  bssid : Option String := none
  ssid : Option String := none
  rssi : Option ℤ := none
  rssi_dbm : Option ℤ := none
  bint : Option ℤ := none
  beacon_interval_ms : Option ℤ := none
deriving Repr, DecidableEq

/-- `obj.get(k1, obj.get(k2, default))`. -/
def jget2 (a b : Option ℤ) (dflt : ℤ) : ℤ :=
  match a with
  | some v => v
  | none => match b with
    | some v => v
    | none => dflt

/-- `obj.get(k1, obj.get(k2, obj.get(k3, default)))`. -/
def jget3 (a b c : Option ℤ) (dflt : ℤ) : ℤ :=
  match a with
  | some v => v
  | none => jget2 b c dflt

/-- Python falsy-`or` on optional integers: `a or b or None`, where `0`
counts as falsy, as used for `bint` in `_parse_line`. -/
def orFalsyInt (a b : Option ℤ) : Option ℤ :=
  match a with
  | some v => if v = 0 then (match b with
      | some w => if w = 0 then none else some w
      | none => none) else some v
  | none => match b with
    | some w => if w = 0 then none else some w
    | none => none

/-- The JSON branch of `_parse_line`.  On the modelled fragment it always
yields a record: a missing `bssid` becomes `""`, a missing `rssi` becomes
`0`, and a missing frequency becomes the default `0`, which *passes* the
`str(freq_raw).strip().isdigit()` test, so `freq_from_channel` is *not*
consulted (a negative frequency value fails the digit test and falls back
to `freq_from_channel`). -/
def parse_json_line (self_node : ℤ) (o : JLine) : ProbeRec :=
  let node := jget3 o.node o.node_id o.id self_node
  let ch := jget3 o.ch o.chan o.channel 0
  let freqRaw := jget2 o.freq o.frequency_mhz 0
  let freq := if 0 ≤ freqRaw then freqRaw else freq_from_channel ch
  let bssid := o.bssid.getD ""
  let ssid := o.ssid.getD ""
  let rssi := jget2 o.rssi o.rssi_dbm 0
  let bint := orFalsyInt o.bint o.beacon_interval_ms
  { node_id := node, channel := ch, frequency_mhz := freq,
    bssid := bssid, ssid := ssid, rssi_dbm := rssi,
    beacon_interval_ms := bint }

/-- The CSV branch of `_parse_line` (`node,ch,freq,bssid,ssid,rssi,bint`).
An empty numeric field is `none`; `int('')` on the channel field raises,
so the branch fails and the line is discarded. -/
def parse_csv_line (self_node : ℤ) (nodeF chF freqF : Option ℤ)
    (bssidF ssidF : String) (rssiF bintF : Option ℤ) : Option ProbeRec :=
  match chF with
  | none => none
  | some ch =>
    some { node_id := nodeF.getD self_node,
           channel := ch,
           frequency_mhz := freqF.getD (freq_from_channel ch),
           bssid := bssidF, ssid := ssidF,
           rssi_dbm := rssiF.getD 0,
           beacon_interval_ms := bintF }

/-- The shape of an incoming probe line after decoding: a JSON object (on
the modelled fragment), a ≥7-field CSV line, or a line valid by neither
format. -/
inductive LineShape
  | jsonObj (o : JLine)
  | csvFields (nodeF chF freqF : Option ℤ) (bssidF ssidF : String)
      (rssiF bintF : Option ℤ)
  | malformed

/-- `ProbeReader._parse_line`: JSON first, then CSV, else `None`.  All
exceptions are caught inside, so the function is total. -/
def parse_line (self_node : ℤ) : LineShape → Option ProbeRec
  | .jsonObj o => some (parse_json_line self_node o)
  | .csvFields nodeF chF freqF bssidF ssidF rssiF bintF =>
      parse_csv_line self_node nodeF chF freqF bssidF ssidF rssiF bintF
  | .malformed => none

/-- The frequency put into the fused row by the dispatch loop of
`aggregator.py`: `int(rec.get("frequency_mhz", 0)) or freq_from_channel(ch)`
(Python `or`, so a zero parsed frequency is replaced by the channel-derived
one). -/
def dispatch_frequency (recFreq ch : ℤ) : ℤ :=
  if recFreq = 0 then freq_from_channel ch else recFreq

/-! ### The capture-thread parse gate (`capture` in `wifi_capture_service.py`).

The capture loop extracts `bssid`, `ssid`, `rssi` and a channel from a raw
line and drops the line (`continue`) when `not bssid or rssi is None or
ch is None`.  Numeric nodes additionally drop hidden SSIDs, every node
drops SSIDs containing `shentel`/`acso`, and the row frequency is
`extract_int(s,"freq") or freq_from_ch(ch)` (falsy `or`). -/

/-- Node identity of a capture thread: the reserved directional roles or a
numeric scanner id. -/
inductive NodeId
  | left
  | right
  | num (n : ℤ)
deriving Repr, DecidableEq

/-- `extract_channel`: the first of the `ch`/`chan`/`channel` values that
is truthy and within `1..13`; otherwise `None`. -/
def extract_channel (chF chanF channelF : Option ℤ) : Option ℤ :=
  ([chF, chanF, channelF]).findSome? (fun o =>
    match o with
    | some v => if 1 ≤ v ∧ v ≤ 13 then some v else none
    | none => none)

/-- Substring test on character lists (`needle in hay` for Python strings). -/
def listContains (needle : List Char) : List Char → Bool
  | [] => needle.isEmpty
  | c :: t => needle.isPrefixOf (c :: t) || listContains needle t

/-- Python `sub in s` for strings. -/
def strContains (hay sub : String) : Bool :=
  listContains sub.toList hay.toList

/-- Keep printable ASCII only (`32 <= ord(ch) <= 126`), as `capture` does
for directional SSIDs. -/
def printableAscii (s : String) : String :=
  String.mk (s.toList.filter (fun c => decide (32 ≤ c.toNat ∧ c.toNat ≤ 126)))

/-- A row queued to the capture database
(`ts,node_id,ch,freq,bssid,ssid,rssi,lat,lon,alt,sp,tr`). -/
structure CapRow where
  ts : ℚ
  node : NodeId
  ch : ℤ
  freq : ℤ
  bssid : String
  ssid : Option String
  rssi : ℤ
  lat : Option ℚ
  lon : Option ℚ
  alt : Option ℚ
  speed : Option ℚ
  track : Option ℚ
deriving Repr, DecidableEq

/-- Whether a numeric node drops the SSID as hidden:
`not ssid or ssid.strip()=="" or ssid.lower() in ("", "hidden")`. -/
def hiddenForNumeric (ssid : Option String) : Bool :=
  match ssid with
  | none => true
  | some s => s = "" || s.trim = "" || s.toLower = "" || s.toLower = "hidden"

/-- One iteration of the `capture` loop from field extraction to the row
that is pushed to the queue; `none` when the line is dropped. -/
def capture_parse (node : NodeId) (bssidF ssidF : Option String)
    (rssiF : Option ℤ) (chF freqF : Option ℤ)
    (lat lon alt speed track : Option ℚ) (ts : ℚ) : Option CapRow :=
  match bssidF with
  | none => none
  | some bssid =>
    if bssid = "" then none
    else match rssiF with
    | none => none
    | some rssi =>
      match chF with
      | none => none
      | some ch =>
        if node ≠ NodeId.left ∧ node ≠ NodeId.right ∧ hiddenForNumeric ssidF
        then none
        else
          let ssid1 := match ssidF with
            | some s => if s = "" then some s else some (printableAscii s)
            | none => none
          let denied : Bool := match ssid1 with
            | some s => (!(s == "")) && (strContains s.toLower "shentel"
                || strContains s.toLower "acso")
            | none => false
          if denied then none
          else
            let freq := match freqF with
              | some f => if f = 0 then freq_from_ch ch else f
              | none => freq_from_ch ch
            some { ts := ts, node := node, ch := ch, freq := freq,
                   bssid := bssid.toUpper, ssid := ssid1, rssi := rssi,
                   lat := lat, lon := lon, alt := alt,
                   speed := speed, track := track }

/-! ### The position source fuser (`GPSDReader._parse_obj` in
`aggregator.py`).

A gpsd JSON object of class `TPV` carries position/velocity fields, a
`SKY` object carries `hdop`/`vdop`, and everything else is ignored.  The
locals extracted from the message are merged with the previous fix:
`lat = lat if lat is not None else prev.lat`, and so on, field by field.
The extraction uses Python falsy-`or` on `altMSL or alt` and
`track or course`. -/

/-- Python `a or b` on optional rationals, where `0` is falsy. -/
def pyOrQ (a b : Option ℚ) : Option ℚ :=
  match a with
  | some v => if v = 0 then b else some v
  | none => b

/-- `x if x is not None else y`. -/
def carry (a b : Option ℚ) : Option ℚ :=
  match a with
  | some v => some v
  | none => b

/-- A gpsd message, restricted to the keys `_parse_obj` reads. -/
inductive GpsdMsg
  | tpv (lat lon altMSL alt speed track course : Option ℚ)
  | sky (hdop vdop : Option ℚ)
  | other
deriving Repr, DecidableEq

/-- The seven locals of `_parse_obj` after the class dispatch, before the
merge with the previous fix. -/
structure Carried where
  lat : Option ℚ
  lon : Option ℚ
  alt : Option ℚ
  spd : Option ℚ
  trk : Option ℚ
  hdop : Option ℚ
  vdop : Option ℚ
deriving Repr, DecidableEq

/-- Field extraction of `_parse_obj`:  `TPV` yields `lat`, `lon`,
`altMSL or alt`, `speed`, `track or course`; `SKY` yields `hdop`, `vdop`;
every field starts as `None`. -/
def carriedFields : GpsdMsg → Carried
  | .tpv lat lon altMSL alt speed track course =>
      { lat := lat, lon := lon, alt := pyOrQ altMSL alt,
        spd := speed, trk := pyOrQ track course, hdop := none, vdop := none }
  | .sky hdop vdop =>
      { lat := none, lon := none, alt := none, spd := none, trk := none,
        hdop := hdop, vdop := vdop }
  | .other =>
      { lat := none, lon := none, alt := none, spd := none, trk := none,
        hdop := none, vdop := none }

/-- The merge of `_parse_obj`: each local falls back to the previous fix
when it is `None`, and the result replaces the stored fix with a fresh
timestamp. -/
def mergeFix (use_pps : Bool) (ts : ℚ) (prev : Option GPSFix)
    (c : Carried) : GPSFix :=
  match prev with
  | none =>
      { ts_utc := ts, lat := c.lat, lon := c.lon, alt_m := c.alt,
        speed_mps := c.spd, track_deg := c.trk, hdop := c.hdop,
        vdop := c.vdop, pps_locked := use_pps }
  | some p =>
      { ts_utc := ts,
        lat := carry c.lat p.lat, lon := carry c.lon p.lon,
        alt_m := carry c.alt p.alt_m, speed_mps := carry c.spd p.speed_mps,
        track_deg := carry c.trk p.track_deg, hdop := carry c.hdop p.hdop,
        vdop := carry c.vdop p.vdop, pps_locked := use_pps }

/-- `GPSDReader._parse_obj`: messages of an unknown class leave the stored
fix untouched (early `return`); `TPV`/`SKY` merge into it. -/
def parse_obj (use_pps : Bool) (ts : ℚ) (prev : Option GPSFix)
    (msg : GpsdMsg) : Option GPSFix :=
  match msg with
  | .other => prev
  | m => some (mergeFix use_pps ts prev (carriedFields m))

/-! ### The gpspipe state updater (`main` in `gps_services.py`).

Unlike `_parse_obj`, a `TPV` message with `mode >= 2` *assigns* the
position and motion fields from the message (`state["lat"] =
msg.get("lat")`), so an absent key overwrites a known value with null,
and a `TPV` with `mode < 2` explicitly sets `speed_mps` and `track_deg`
to null. -/

/-- The mutable `state` dict of `gps_services.py` (timing and satellite
bookkeeping omitted; they never touch the position/motion fields). -/
structure GState where
  lat : Option ℚ
  lon : Option ℚ
  alt : Option ℚ
  speed_mps : Option ℚ
  track_deg : Option ℚ
  track_deg_stable : Option ℚ
  mode : ℤ
  fix : String
deriving Repr, DecidableEq

/-- A `TPV` message as read by `gps_services.py`. -/
structure GTpv where
  mode : ℤ
  lat : Option ℚ
  lon : Option ℚ
  alt : Option ℚ
  altMSL : Option ℚ
  speed : Option ℚ
  track : Option ℚ
deriving Repr, DecidableEq

/-- `MIN_SPEED_MPS` of `gps_services.py`. -/
def MIN_SPEED_MPS : ℚ := 1

/-- The `TPV` branch of `gps_services.main`, returning the new state and
the new `last_good_track`. -/
def gps_services_tpv (st : GState) (last_good_track : Option ℚ)
    (m : GTpv) : GState × Option ℚ :=
  let st0 := { st with mode := m.mode }
  if 2 ≤ m.mode then
    let spd := m.speed
    let trk := m.track
    let keepTrack : Bool := match spd, trk with
      | some s, some _ => decide (MIN_SPEED_MPS ≤ s)
      | _, _ => false
    let lg := if keepTrack then trk else last_good_track
    ({ st0 with
        lat := m.lat, lon := m.lon, alt := pyOrQ m.alt m.altMSL,
        speed_mps := spd, track_deg := trk,
        fix := if m.mode = 3 then "3D FIX" else "2D FIX",
        track_deg_stable := if keepTrack then trk else last_good_track },
     lg)
  else
    ({ st0 with
        fix := "NO FIX", speed_mps := none, track_deg := none,
        track_deg_stable := last_good_track },
     last_good_track)

/-! ### The live device tracker (`main` in `broker.py`).

Per BSSID, a deque of `(ts, node, rssi, channel, ssid)` samples.  On each
pass: pop from the left while the head is older than `WINDOW_SEC`; drop
the BSSID when the deque is empty or its newest sample is older than
`STALE_SEC`; otherwise report the latest ssid/channel, the integer-
truncated mean RSSI, and the LEFT/RIGHT/OMNI side decision. -/

/-- `WINDOW_SEC` of `broker.py`. -/
def WINDOW_SEC : ℚ := 2

/-- `STALE_SEC` of `broker.py`. -/
def STALE_SEC : ℚ := 3

/-- One history sample `(ts, node, rssi, channel, ssid)`. -/
structure BSample where
  ts : ℚ
  node : String
  rssi : ℤ
  ch : Option ℤ
  ssid : String
deriving Repr, DecidableEq

/-- Arithmetic mean of a list of integers, as a rational. -/
def qmean (xs : List ℤ) : ℚ := (xs.sum : ℚ) / (xs.length : ℚ)

/-- Python `int(x)` on a real value: truncation toward zero. -/
def intTrunc (q : ℚ) : ℤ := if 0 ≤ q then ⌊q⌋ else ⌈q⌉

/-- The RSSI values of the samples taken by the reserved LEFT role. -/
def leftVals (dq : List BSample) : List ℤ :=
  (dq.filter (fun s => s.node = "LEFT")).map (fun s => s.rssi)

/-- The RSSI values of the samples taken by the reserved RIGHT role. -/
def rightVals (dq : List BSample) : List ℤ :=
  (dq.filter (fun s => s.node = "RIGHT")).map (fun s => s.rssi)

/-- The side decision of `broker.py`: with both roles in the window,
`LEFT` iff the LEFT mean strictly exceeds the RIGHT mean (ties go to
`RIGHT`); with exactly one role present, that role; `OMNI` only when
neither role reports. -/
def sideOf (dq : List BSample) : String :=
  let l := leftVals dq
  let r := rightVals dq
  if l.isEmpty then
    (if r.isEmpty then "OMNI" else "RIGHT")
  else if r.isEmpty then "LEFT"
  else if qmean l > qmean r then "LEFT" else "RIGHT"

/-- One published device entry of the broker snapshot. -/
structure BrokerDev where
  ssid : String
  rssi : Option ℤ
  ch : Option ℤ
  side : String
  last_seen : ℚ
deriving Repr, DecidableEq

/-- The per-BSSID snapshot computation of `broker.py`:  prune the window,
evict on emptiness or staleness of the newest retained sample, otherwise
report the smoothed (truncated-mean) strength and the side decision. -/
def broker_entry (now : ℚ) (dq0 : List BSample) : Option BrokerDev :=
  let dq := dq0.dropWhile (fun s => decide (now - s.ts > WINDOW_SEC))
  match dq.getLast? with
  | none => none
  | some lastS =>
    if now - lastS.ts > STALE_SEC then none
    else
      let vals := dq.map (fun s => s.rssi)
      some { ssid := lastS.ssid,
             rssi := if vals.isEmpty then none
               else some (intTrunc ((vals.sum : ℚ) / (max vals.length 1 : ℚ))),
             ch := lastS.ch,
             side := sideOf dq,
             last_seen := lastS.ts }

/-! ### Multilateration (`scripts/trilaterate.py`).

`rssi_to_range` and `conf_from_cov_radius` are closed-form numeric
functions, modelled over `ℝ` (`10 ** x` is `Real.rpow`, `math.exp` is
`Real.exp`).  IEEE non-finite values, which `np.isfinite` screens in
`conf_from_cov_radius`, are modelled by a tagged type `RVal`.  The
iterative `scipy.optimize.least_squares` call is a parameter of
`fit_bssid`; everything before and after it — in particular the
`len(enu_obs) < 3` guard that produces the `not_enough_observations`
status, and the `len(obs) < 3` guard of `process_bssid` — is translated
from the source. -/

/-- A float value as classified by `np.isfinite`: NaN, an infinity, or a
finite real. -/
inductive RVal
  | nan
  | posinf
  | neginf
  | fin (x : ℝ)

/-- `np.isfinite`. -/
def np_isfinite : RVal → Bool
  | .fin _ => true
  | _ => false

/-- `DEF_P0` of `trilaterate.py` (RSSI at 1 m, dBm). -/
def DEF_P0 : ℝ := -40

/-- `DEF_N` of `trilaterate.py` (path-loss exponent). -/
def DEF_N : ℝ := 2.2

/-- `DEF_MAX_RANGE` of `trilaterate.py` (meters). -/
def DEF_MAX_RANGE : ℝ := 2000

/-- `CONF_SCALE_M` of `trilaterate.py` (meters). -/
def CONF_SCALE_M : ℝ := 100

/-- `rssi_to_range`: `d = d0 * 10 ** ((p0 - rssi) / (10 * n))`, then
`min(max(d, 2.0), max_range)`. -/
noncomputable def rssi_to_range (rssi p0 n : ℝ) (d0 : ℝ := 1)
    (max_range : ℝ := DEF_MAX_RANGE) : ℝ :=
  min (max (d0 * (10 : ℝ) ^ ((p0 - rssi) / (10 * n))) 2) max_range

/-- `conf_from_cov_radius`: `100.0` when the radius is non-finite or
nonpositive, otherwise `100 * exp(-(R95 / max(1e-6, scale)))` clamped to
`[0, 100]`. -/
noncomputable def conf_from_cov_radius (R95 : RVal) (scale_m : ℝ) : ℝ :=
  match R95 with
  | .fin x =>
      if x ≤ 0 then 100
      else max 0 (min 100 (100 * Real.exp (-(x / max 1e-6 scale_m))))
  | _ => 100

/-- One ENU observation of `trilaterate.py` (`Obs` dataclass). -/
structure TriObs where
  x : ℝ
  y : ℝ
  z : ℝ
  rssi : ℝ
  speed : Option ℝ
  track : Option ℝ
  hdop : Option ℝ
  vdop : Option ℝ
  ts : ℚ

/-- The outcome of the `least_squares` call: convergence flag, solution,
and the `cov_R95_m` radius computed from the Jacobian (NaN when the
covariance computation raises). -/
structure LsqResult where
  success : Bool
  sol : ℝ × ℝ × ℝ
  covR95 : RVal

/-- The `info` dict built by `fit_bssid`, restricted to the keys its
caller reads (`info["cov_R95_m"]` is read through
`info.get("cov_R95_m", float("nan"))`, so an absent key is NaN). -/
structure FitInfo where
  ok : Bool
  reason : String
  covR95 : RVal

/-- `fit_bssid`: with fewer than 3 observations it returns
`(None, {"ok": False, "reason": "not_enough_observations"})` before the
solver ever runs; otherwise the abstracted `least_squares` outcome decides
between a solution and a failed fit. -/
def fit_bssid (lsq : List TriObs → LsqResult) (enu_obs : List TriObs) :
    Option (ℝ × ℝ × ℝ) × FitInfo :=
  if enu_obs.length < 3 then
    (none, { ok := false, reason := "not_enough_observations",
             covR95 := RVal.nan })
  else
    let r := lsq enu_obs
    if r.success then
      (some r.sol, { ok := true, reason := "converged", covR95 := r.covR95 })
    else
      (none, { ok := false, reason := "no_convergence", covR95 := r.covR95 })

/-- A GeoJSON feature produced for one BSSID, restricted to the
claim-relevant properties. -/
structure TriFeature where
  lat : ℝ
  lon : ℝ
  alt : ℝ
  cov_R95_m : RVal
  confidence_pct : ℝ

/-- `process_bssid`: skip the address entirely (`return None`) when fewer
than 3 observations survive extraction; skip it when the fit is not ok;
otherwise convert the solution back to geographic coordinates and attach
the covariance-radius confidence. -/
noncomputable def process_bssid (lsq : List TriObs → LsqResult)
    (to_llh : ℝ × ℝ × ℝ → ℝ × ℝ × ℝ) (obs : List TriObs)
    (conf_scale_m : ℝ) : Option TriFeature :=
  if obs.length < 3 then none
  else
    match fit_bssid lsq obs with
    | (none, _) => none
    | (some sol, info) =>
      if info.ok then
        let llh := to_llh sol
        some { lat := llh.1, lon := llh.2.1, alt := llh.2.2,
               cov_R95_m := info.covR95,
               confidence_pct := conf_from_cov_radius info.covR95 conf_scale_m }
      else none

/-! ## Claim theorems -/

/-- Claim C1: for every address with fewer than 3 usable geo-tagged
samples, `fit_bssid` reports the insufficient-geometry status
(`ok = False`, reason `not_enough_observations`) and `process_bssid`
emits no result; in particular this covers exactly 2 valid samples. -/
theorem insufficient_geometry_no_result (lsq : List TriObs → LsqResult)
    (to_llh : ℝ × ℝ × ℝ → ℝ × ℝ × ℝ) (obs : List TriObs) (scale : ℝ)
    (h : obs.length < 3) :
    fit_bssid lsq obs =
      (none, { ok := false, reason := "not_enough_observations",
               covR95 := RVal.nan }) ∧
    process_bssid lsq to_llh obs scale = none := by
  constructor
  · unfold fit_bssid
    simp [h]
  · unfold process_bssid
    simp [h]

/-- Witness for C1: with exactly two observations the solver is never
consulted, the status is `not_enough_observations`, and no feature is
produced. -/
theorem insufficient_geometry_no_result_witness :
    ([(⟨0, 0, 0, -50, none, none, none, none, 0⟩ : TriObs),
      ⟨3, 4, 0, -60, none, none, none, none, 1⟩].length < 3) ∧
    (fit_bssid (fun _ => ⟨true, (0, 0, 0), RVal.nan⟩)
        [⟨0, 0, 0, -50, none, none, none, none, 0⟩,
         ⟨3, 4, 0, -60, none, none, none, none, 1⟩] =
      (none, { ok := false, reason := "not_enough_observations",
               covR95 := RVal.nan }) ∧
     process_bssid (fun _ => ⟨true, (0, 0, 0), RVal.nan⟩) id
        [⟨0, 0, 0, -50, none, none, none, none, 0⟩,
         ⟨3, 4, 0, -60, none, none, none, none, 1⟩] 100 = none) :=
  ⟨by simp, insufficient_geometry_no_result _ _ _ _ (by simp)⟩

/-- Claim C2: for a stored fix, `latest_fix` returns `None` exactly when
`(now - fix_time) * 1000 > max_fix_age_ms` (age strictly exceeds the
bound), and still returns the fix at an age of exactly the bound. -/
theorem latest_fix_staleness (fix : GPSFix) (now maxAge : ℚ) :
    (latest_fix (some fix) now maxAge = none ↔
      (now - fix.ts_utc) * 1000 > maxAge) ∧
    ((now - fix.ts_utc) * 1000 = maxAge →
      latest_fix (some fix) now maxAge = some fix) := by
  unfold latest_fix
  constructor
  · by_cases hgt : (now - fix.ts_utc) * 1000 > maxAge <;> simp [hgt]
  · intro h
    have hno : ¬((now - fix.ts_utc) * 1000 > maxAge) := by
      rw [h]
      exact lt_irrefl _
    simp [hno]

/-- Witness for C2: a fix whose age is exactly the configured bound is
still returned. -/
theorem latest_fix_staleness_witness :
    ((1 : ℚ) - (0 : ℚ)) * 1000 = 1000 ∧
    latest_fix
      (some { ts_utc := 0, lat := none, lon := none, alt_m := none,
              speed_mps := none, track_deg := none, hdop := none,
              vdop := none, pps_locked := false }) 1 1000 =
      some { ts_utc := 0, lat := none, lon := none, alt_m := none,
             speed_mps := none, track_deg := none, hdop := none,
             vdop := none, pps_locked := false } :=
  ⟨by norm_num,
   (latest_fix_staleness _ 1 1000).2 (by norm_num)⟩

/-- Claim C8: a non-blocking push to a full fan-in queue drops the new
item and leaves the queue contents unchanged; a push below capacity never
raises the length beyond capacity; and any sequence of pushes starting
from an empty queue keeps the observable queue length within capacity. -/
theorem queue_drop_on_full {α : Type} (cap : ℕ) :
    (∀ (q : List α) (x : α), cap ≤ q.length → put_nowait cap q x = q) ∧
    (∀ (q : List α) (x : α), q.length ≤ cap →
      (put_nowait cap q x).length ≤ cap) ∧
    (∀ xs : List α,
      (xs.foldl (fun q x => put_nowait cap q x) []).length ≤ cap) := by
  refine ⟨?_, ?_, ?_⟩
  · intro q x h
    unfold put_nowait
    simp [Nat.not_lt.mpr h]
  · intro q x h
    exact put_nowait_length_le cap q x h
  · intro xs
    exact foldl_put_nowait_length_le cap xs [] (by simp)

/-- Witness for C8: pushing into a full 2-slot queue leaves it unchanged. -/
theorem queue_drop_on_full_witness :
    2 ≤ ([(1 : ℤ), 2]).length ∧ put_nowait 2 [(1 : ℤ), 2] 3 = [1, 2] :=
  ⟨by simp, (queue_drop_on_full (α := ℤ) 2).1 [1, 2] 3 (by simp)⟩

/-- Claim C6: the strength-to-range conversion is the clamp of the
log-distance formula to `[2, max_range]`: the result always lies in that
closed interval, and it equals the formula whenever the formula's value is
inside the interval. -/
theorem rssi_to_range_clamp (rssi p0 n d0 maxr : ℝ) (h2 : 2 ≤ maxr) :
    (2 ≤ rssi_to_range rssi p0 n d0 maxr ∧
     rssi_to_range rssi p0 n d0 maxr ≤ maxr) ∧
    (2 ≤ d0 * (10 : ℝ) ^ ((p0 - rssi) / (10 * n)) →
     d0 * (10 : ℝ) ^ ((p0 - rssi) / (10 * n)) ≤ maxr →
     rssi_to_range rssi p0 n d0 maxr
       = d0 * (10 : ℝ) ^ ((p0 - rssi) / (10 * n))) := by
  unfold rssi_to_range
  refine ⟨⟨le_min (le_max_right _ 2) h2, min_le_right _ _⟩, ?_⟩
  intro hlo hhi
  rw [max_eq_left hlo, min_eq_left hhi]

/-- Witness for C6: with the default constants (`P0 = -40`, `n = 2.2`,
`max_range = 2000`) the converted range is always within `[2, 2000]`. -/
theorem rssi_to_range_clamp_witness :
    2 ≤ DEF_MAX_RANGE ∧
    (2 ≤ rssi_to_range (-62) DEF_P0 DEF_N 1 DEF_MAX_RANGE ∧
     rssi_to_range (-62) DEF_P0 DEF_N 1 DEF_MAX_RANGE ≤ DEF_MAX_RANGE) :=
  ⟨by norm_num [DEF_MAX_RANGE],
   (rssi_to_range_clamp (-62) DEF_P0 DEF_N 1 DEF_MAX_RANGE
      (by norm_num [DEF_MAX_RANGE])).1⟩

/-- Claim C10: `conf_from_cov_radius` returns exactly 100 for every
non-finite radius (the NaN of a failed covariance computation included)
and for every nonpositive radius; for a positive finite radius with a
scale of at least `1e-6` (the code guards the divisor with
`max(1e-6, scale)`) it returns `100 * exp(-R95/scale)` clamped to
`[0, 100]`, and on the positive-finite domain it is monotonically
nonincreasing in the radius. -/
theorem conf_from_cov_radius_spec (scale : ℝ) :
    (∀ R : RVal, np_isfinite R = false →
      conf_from_cov_radius R scale = 100) ∧
    (∀ x : ℝ, x ≤ 0 → conf_from_cov_radius (RVal.fin x) scale = 100) ∧
    (∀ x : ℝ, 0 < x → 1e-6 ≤ scale →
      conf_from_cov_radius (RVal.fin x) scale
        = max 0 (min 100 (100 * Real.exp (-(x / scale))))) ∧
    (∀ x y : ℝ, 0 < x → x ≤ y →
      conf_from_cov_radius (RVal.fin y) scale ≤
        conf_from_cov_radius (RVal.fin x) scale) := by
  refine ⟨?_, ?_, ?_, ?_⟩
  · intro R hR
    cases R <;> simp_all [conf_from_cov_radius, np_isfinite]
  · intro x hx
    simp [conf_from_cov_radius, hx]
  · intro x hx hs
    simp only [conf_from_cov_radius, if_neg (not_le.mpr hx)]
    rw [max_eq_right hs]
  · intro x y hx hxy
    have hy : 0 < y := lt_of_lt_of_le hx hxy
    have hs : (0 : ℝ) < max 1e-6 scale :=
      lt_of_lt_of_le (by norm_num) (le_max_left _ _)
    simp only [conf_from_cov_radius, if_neg (not_le.mpr hx),
      if_neg (not_le.mpr hy)]
    refine max_le_max le_rfl (min_le_min le_rfl ?_)
    refine mul_le_mul_of_nonneg_left ?_ (by norm_num)
    refine Real.exp_le_exp.mpr (neg_le_neg ?_)
    exact (div_le_div_iff_of_pos_right hs).mpr hxy

/-- Witness for C10: a zero radius and the NaN of a failed covariance
computation both map to the maximal confidence. -/
theorem conf_from_cov_radius_spec_witness :
    conf_from_cov_radius (RVal.fin 0) CONF_SCALE_M = 100 ∧
    conf_from_cov_radius RVal.nan CONF_SCALE_M = 100 :=
  ⟨(conf_from_cov_radius_spec CONF_SCALE_M).2.1 0 le_rfl,
   (conf_from_cov_radius_spec CONF_SCALE_M).1 RVal.nan rfl⟩

/-- Counterexample for C4: the structured (JSON) branch of
`ProbeReader._parse_line` does not reject a line missing both the
transmitter address and the signal strength; it substitutes the defaults
(`bssid = ""`, `rssi = 0`) and returns a record, which the reader then
pushes to the fan-in queue. -/
theorem parse_line_missing_fields_counterexample :
    parse_line 3 (LineShape.jsonObj {}) =
      some { node_id := 3, channel := 0, frequency_mhz := 0, bssid := "",
             ssid := "", rssi_dbm := 0, beacon_interval_ms := none } := by
  rfl

/-- Claim C4 (amended): in `wifi_capture_service.capture`, a probe line
whose extracted address is absent or empty, or whose signal strength or
channel is absent, is dropped at the parse boundary and no row enters the
queue (parsing is total, so no exception propagates); in
`aggregator.ProbeReader._parse_line` such a line is *not* dropped —
defaults are substituted instead (see the counterexample). -/
theorem capture_parse_missing_fields (node : NodeId)
    (bssidF ssidF : Option String) (rssiF chF freqF : Option ℤ)
    (lat lon alt speed track : Option ℚ) (ts : ℚ)
    (h : bssidF = none ∨ bssidF = some "" ∨ rssiF = none ∨ chF = none) :
    capture_parse node bssidF ssidF rssiF chF freqF
      lat lon alt speed track ts = none := by
  rcases h with h | h | h | h <;> subst h
  · simp [capture_parse]
  · simp [capture_parse]
  · cases bssidF with
    | none => simp [capture_parse]
    | some b => by_cases hb : b = "" <;> simp [capture_parse, hb]
  · cases bssidF with
    | none => simp [capture_parse]
    | some b =>
      by_cases hb : b = "" <;> cases rssiF <;> simp [capture_parse, hb]

/-- Witness for C4 (amended): a line with an address and a channel but no
signal strength produces no row. -/
theorem capture_parse_missing_fields_witness :
    ((some "AA:BB" : Option String) = none ∨
     (some "AA:BB" : Option String) = some "" ∨
     (none : Option ℤ) = none ∨ (some (6 : ℤ) : Option ℤ) = none) ∧
    capture_parse (NodeId.num 3) (some "AA:BB") (some "net") none (some 6)
      none none none none none none 0 = none :=
  ⟨Or.inr (Or.inr (Or.inl rfl)),
   capture_parse_missing_fields (NodeId.num 3) (some "AA:BB") (some "net")
     none (some 6) none none none none none none 0
     (Or.inr (Or.inr (Or.inl rfl)))⟩

/-- Counterexample for C9: a structured line with a non-null address and
signal strength but no frequency key parses to an Observation whose
frequency is `0`, not the channel-table value 2437 for channel 6 — the
default `0` passes Python's `str(freq_raw).strip().isdigit()` test, so
`freq_from_channel` is bypassed at the parse boundary. -/
theorem parse_json_frequency_counterexample :
    parse_line 3 (LineShape.jsonObj
      { bssid := some "AA:BB:CC:DD:EE:FF", rssi := some (-50),
        ch := some 6 }) =
      some { node_id := 3, channel := 6, frequency_mhz := 0,
             bssid := "AA:BB:CC:DD:EE:FF", ssid := "", rssi_dbm := -50,
             beacon_interval_ms := none } ∧
    freq_from_channel 6 = 2437 ∧ (0 : ℤ) ≠ 2437 := by
  refine ⟨rfl, rfl, by decide⟩

/-- Claim C9 (amended): every structured line (on the modelled fragment)
and every delimited line with a parseable channel yields exactly one
Observation.  A delimited line with an empty frequency field gets the
channel-table frequency at parse time; a structured line missing the
frequency parses with frequency `0`, and the channel-table derivation is
applied at dispatch time instead (`dispatch_frequency`).  The fixed table
maps channel 6 to 2437 MHz and channel 14 to 2484 MHz. -/
theorem parse_frequency_derivation :
    (∀ (self : ℤ) (o : JLine),
      parse_line self (LineShape.jsonObj o) = some (parse_json_line self o)) ∧
    (∀ (self : ℤ) (nodeF : Option ℤ) (bssidF ssidF : String)
        (rssiF bintF : Option ℤ) (ch : ℤ),
      parse_csv_line self nodeF (some ch) none bssidF ssidF rssiF bintF =
        some { node_id := nodeF.getD self, channel := ch,
               frequency_mhz := freq_from_channel ch, bssid := bssidF,
               ssid := ssidF, rssi_dbm := rssiF.getD 0,
               beacon_interval_ms := bintF }) ∧
    (∀ (self : ℤ) (o : JLine), o.freq = none → o.frequency_mhz = none →
      (parse_json_line self o).frequency_mhz = 0) ∧
    (∀ ch : ℤ, dispatch_frequency 0 ch = freq_from_channel ch) ∧
    freq_from_channel 6 = 2437 ∧ freq_from_channel 14 = 2484 := by
  refine ⟨fun self o => rfl, fun self nodeF bssidF ssidF rssiF bintF ch => rfl,
    ?_, fun ch => rfl, rfl, rfl⟩
  intro self o h1 h2
  simp [parse_json_line, jget2, h1, h2]

/-- Witness for C9 (amended): a delimited line on channel 6 with an empty
frequency field parses to exactly one Observation carrying 2437 MHz. -/
theorem parse_frequency_derivation_witness :
    parse_csv_line 3 none (some 6) none "AA:BB:CC:DD:EE:FF" "net"
      (some (-50)) none =
      some { node_id := 3, channel := 6, frequency_mhz := 2437,
             bssid := "AA:BB:CC:DD:EE:FF", ssid := "net", rssi_dbm := -50,
             beacon_interval_ms := none } := by
  rw [parse_frequency_derivation.2.1 3 none "AA:BB:CC:DD:EE:FF" "net"
    (some (-50)) none 6, parse_frequency_derivation.2.2.2.2.1]
  rfl

/-- The three merge-by-field properties of `x if x is not None else prev`. -/
theorem carry_props (a b : Option ℚ) :
    (a = none → carry a b = b) ∧
    (∀ v, a = some v → carry a b = some v) ∧
    (∀ v, b = some v → carry a b ≠ none) := by
  refine ⟨?_, ?_, ?_⟩
  · intro h
    subst h
    rfl
  · intro v h
    subst h
    rfl
  · intro v hv
    cases a <;> simp [carry, hv]

/-- Counterexample for C3: in `gps_services.py` a `TPV` message with
`mode < 2` resets the already-known `speed_mps` and `track_deg` to null,
and a `TPV` with `mode >= 2` that carries no `lat` key overwrites a known
latitude with null — positioning fields are not merge-by-field there. -/
theorem gps_services_resets_fields_counterexample :
    (gps_services_tpv
        { lat := some 1, lon := some 2, alt := some 3, speed_mps := some 5,
          track_deg := some 90, track_deg_stable := some 90, mode := 3,
          fix := "3D FIX" } (some 90)
        { mode := 1, lat := none, lon := none, alt := none, altMSL := none,
          speed := none, track := none }).1.speed_mps = none ∧
    (gps_services_tpv
        { lat := some 1, lon := some 2, alt := some 3, speed_mps := some 5,
          track_deg := some 90, track_deg_stable := some 90, mode := 3,
          fix := "3D FIX" } (some 90)
        { mode := 2, lat := none, lon := none, alt := none, altMSL := none,
          speed := none, track := none }).1.lat = none := by
  exact ⟨rfl, rfl⟩

/-- Claim C3 (amended): in the aggregator's GPSD fuser (`_parse_obj`),
every message updates only the fields it carries, every other field of the
current fix is carried forward unchanged, and a field that is non-null is
never reset to null; in `gps_services.py` this does not hold (see the
counterexample). -/
theorem parse_obj_merge_by_field (u : Bool) (ts : ℚ) (prev : GPSFix)
    (msg : GpsdMsg) :
    ∃ nf : GPSFix, parse_obj u ts (some prev) msg = some nf ∧
      (((carriedFields msg).lat = none → nf.lat = prev.lat) ∧
       (∀ v, (carriedFields msg).lat = some v → nf.lat = some v) ∧
       (∀ v, prev.lat = some v → nf.lat ≠ none)) ∧
      (((carriedFields msg).lon = none → nf.lon = prev.lon) ∧
       (∀ v, (carriedFields msg).lon = some v → nf.lon = some v) ∧
       (∀ v, prev.lon = some v → nf.lon ≠ none)) ∧
      (((carriedFields msg).alt = none → nf.alt_m = prev.alt_m) ∧
       (∀ v, (carriedFields msg).alt = some v → nf.alt_m = some v) ∧
       (∀ v, prev.alt_m = some v → nf.alt_m ≠ none)) ∧
      (((carriedFields msg).spd = none → nf.speed_mps = prev.speed_mps) ∧
       (∀ v, (carriedFields msg).spd = some v → nf.speed_mps = some v) ∧
       (∀ v, prev.speed_mps = some v → nf.speed_mps ≠ none)) ∧
      (((carriedFields msg).trk = none → nf.track_deg = prev.track_deg) ∧
       (∀ v, (carriedFields msg).trk = some v → nf.track_deg = some v) ∧
       (∀ v, prev.track_deg = some v → nf.track_deg ≠ none)) ∧
      (((carriedFields msg).hdop = none → nf.hdop = prev.hdop) ∧
       (∀ v, (carriedFields msg).hdop = some v → nf.hdop = some v) ∧
       (∀ v, prev.hdop = some v → nf.hdop ≠ none)) ∧
      (((carriedFields msg).vdop = none → nf.vdop = prev.vdop) ∧
       (∀ v, (carriedFields msg).vdop = some v → nf.vdop = some v) ∧
       (∀ v, prev.vdop = some v → nf.vdop ≠ none)) := by
  cases msg with
  | other =>
      refine ⟨prev, rfl, ?_, ?_, ?_, ?_, ?_, ?_, ?_⟩ <;>
        exact ⟨fun _ => rfl, fun v h => by simp [carriedFields] at h,
          fun v hv => by simp [hv]⟩
  | tpv lat lon altMSL alt speed track course =>
      exact ⟨mergeFix u ts (some prev)
          (carriedFields (GpsdMsg.tpv lat lon altMSL alt speed track course)),
        rfl, carry_props _ _, carry_props _ _, carry_props _ _,
        carry_props _ _, carry_props _ _, carry_props _ _, carry_props _ _⟩
  | sky hdop vdop =>
      exact ⟨mergeFix u ts (some prev) (carriedFields (GpsdMsg.sky hdop vdop)),
        rfl, carry_props _ _, carry_props _ _, carry_props _ _,
        carry_props _ _, carry_props _ _, carry_props _ _, carry_props _ _⟩

/-- Witness for C3 (amended): a `SKY` message carrying only `hdop` merged
into a fix that already knows its position. -/
theorem parse_obj_merge_by_field_witness :
    ∃ nf : GPSFix,
      parse_obj true 5
        (some { ts_utc := 0, lat := some 1, lon := some 2, alt_m := none,
                speed_mps := none, track_deg := none, hdop := none,
                vdop := none, pps_locked := true })
        (GpsdMsg.sky (some 2) none) = some nf ∧
      nf.lat = some 1 ∧ nf.hdop = some 2 := by
  obtain ⟨nf, hnf, hlat, _, _, _, _, hhdop, _⟩ :=
    parse_obj_merge_by_field true 5
      { ts_utc := 0, lat := some 1, lon := some 2, alt_m := none,
        speed_mps := none, track_deg := none, hdop := none, vdop := none,
        pps_locked := true }
      (GpsdMsg.sky (some 2) none)
  exact ⟨nf, hnf, hlat.1 rfl, hhdop.2.1 2 rfl⟩

/-- Counterexample for C5: when only the LEFT role reports in-window
samples, the broker classifies the side as `LEFT`, not `OMNI` as the
claim states. -/
theorem side_single_role_counterexample :
    sideOf [{ ts := 0, node := "LEFT", rssi := -50, ch := none, ssid := "" }]
      = "LEFT" ∧ "LEFT" ≠ "OMNI" := by
  exact ⟨rfl, by decide⟩

/-- Claim C5 (amended): the side classification is `LEFT` when both roles
report and the LEFT mean strictly exceeds the RIGHT mean, `RIGHT` when
both report and the LEFT mean does not exceed the RIGHT mean (so an exact
tie yields `RIGHT`), the reporting role's own side when exactly one role
reports, and `OMNI` only when neither role reports. -/
theorem side_classification (dq : List BSample) :
    (leftVals dq ≠ [] → rightVals dq ≠ [] →
      qmean (leftVals dq) > qmean (rightVals dq) → sideOf dq = "LEFT") ∧
    (leftVals dq ≠ [] → rightVals dq ≠ [] →
      qmean (leftVals dq) ≤ qmean (rightVals dq) → sideOf dq = "RIGHT") ∧
    (leftVals dq ≠ [] → rightVals dq = [] → sideOf dq = "LEFT") ∧
    (leftVals dq = [] → rightVals dq ≠ [] → sideOf dq = "RIGHT") ∧
    (leftVals dq = [] → rightVals dq = [] → sideOf dq = "OMNI") := by
  have hEmp : ∀ xs : List ℤ, xs.isEmpty = true ↔ xs = [] := by
    intro xs
    cases xs <;> simp
  refine ⟨?_, ?_, ?_, ?_, ?_⟩
  · intro hl hr hgt
    simp [sideOf, hEmp, hl, hr, hgt]
  · intro hl hr hle
    have hngt : ¬ qmean (leftVals dq) > qmean (rightVals dq) := not_lt.mpr hle
    simp [sideOf, hEmp, hl, hr, hngt]
  · intro hl hr
    simp [sideOf, hEmp, hl, hr]
  · intro hl hr
    simp [sideOf, hEmp, hl, hr]
  · intro hl hr
    simp [sideOf, hEmp, hl, hr]

/-- Witness for C5 (amended): with both roles reporting the same mean
strength, the tie resolves to `RIGHT`. -/
theorem side_classification_witness :
    leftVals [{ ts := 0, node := "LEFT", rssi := -50, ch := none, ssid := "" },
              { ts := 0, node := "RIGHT", rssi := -50, ch := none, ssid := "" }]
      ≠ [] ∧
    rightVals [{ ts := 0, node := "LEFT", rssi := -50, ch := none, ssid := "" },
               { ts := 0, node := "RIGHT", rssi := -50, ch := none, ssid := "" }]
      ≠ [] ∧
    sideOf [{ ts := 0, node := "LEFT", rssi := -50, ch := none, ssid := "" },
            { ts := 0, node := "RIGHT", rssi := -50, ch := none, ssid := "" }]
      = "RIGHT" :=
  ⟨by simp [leftVals, rightVals], by simp [leftVals, rightVals],
   (side_classification _).2.1 (by simp [leftVals, rightVals])
     (by simp [leftVals, rightVals])
     (by simp [leftVals, rightVals, qmean])⟩

/-- `dropWhile` empties a list whose every element satisfies the
predicate. -/
theorem dropWhile_eq_nil_of_all {α : Type} (p : α → Bool) :
    ∀ l : List α, (∀ x ∈ l, p x = true) → l.dropWhile p = [] := by
  intro l
  induction l with
  | nil => intro _; rfl
  | cons a t ih =>
      intro h
      rw [List.dropWhile_cons]
      simp only [h a (by simp)]
      exact ih (fun y hy => h y (by simp [hy]))

/-- `dropWhile` keeps a list whose head fails the predicate. -/
theorem dropWhile_eq_self_of_head {α : Type} (p : α → Bool) (a : α)
    (t : List α) (h : p a = false) : (a :: t).dropWhile p = a :: t := by
  rw [List.dropWhile_cons]
  simp [h]

/-- The last element reported by `getLast?` is a member of the list. -/
theorem mem_of_getLast?_eq {α : Type} :
    ∀ {l : List α} {a : α}, l.getLast? = some a → a ∈ l := by
  intro l
  induction l with
  | nil => intro a h; cases h
  | cons x t ih =>
      intro a h
      cases t with
      | nil =>
          simp [List.getLast?] at h
          simp [h]
      | cons y s =>
          rw [List.getLast?_cons_cons] at h
          exact List.mem_cons_of_mem x (ih h)

/-- A window of four in-window samples whose mean strength is -50.5 dBm,
used to exhibit the integer truncation of the broker's smoothed value. -/
def truncDq : List BSample :=
  [{ ts := 9, node := "1", rssi := -50, ch := none, ssid := "x" },
   { ts := 9, node := "2", rssi := -50, ch := none, ssid := "x" },
   { ts := 9, node := "3", rssi := -51, ch := none, ssid := "x" },
   { ts := 9, node := "4", rssi := -51, ch := none, ssid := "x" }]

/-- Counterexample for C7: four in-window samples with strengths
-50, -50, -51, -51 have arithmetic mean -101/2 = -50.5, but the broker
reports `int(sum/len) = -50` — off by half a dBm, not a floating-point
tolerance. -/
theorem broker_mean_truncation_counterexample :
    broker_entry 10 truncDq =
      some { ssid := "x", rssi := some (-50), ch := none, side := "OMNI",
             last_seen := 9 } ∧
    qmean (truncDq.map (fun s => s.rssi)) = -101 / 2 ∧
    ((-101 / 2 : ℚ) ≠ ((-50 : ℤ) : ℚ)) := by
  refine ⟨?_, ?_, by norm_num⟩
  · have h2 : intTrunc (-(101 / 2) : ℚ) = -50 := by
      unfold intTrunc
      rw [if_neg (by norm_num), Int.ceil_eq_iff]
      constructor <;> norm_num
    simp [broker_entry, truncDq, WINDOW_SEC, STALE_SEC, sideOf, leftVals,
      rightVals, List.dropWhile, List.getLast?]
    norm_num [h2]
    simp
  · norm_num [qmean, truncDq]

/-- Claim C7 (amended): an address whose most recent retained sample is
older than the eviction bound is absent from the next snapshot; an address
with 3 or more samples, all inside the window, reports a smoothed strength
equal to the *integer truncation* of the arithmetic mean of those samples
(Python `int()`), which equals the mean exactly when the mean is an
integer. -/
theorem broker_tracker_snapshot (now : ℚ) (dq : List BSample)
    (lastS : BSample) (hlast : dq.getLast? = some lastS) :
    ((∀ s ∈ dq, s.ts ≤ lastS.ts) → now - lastS.ts > STALE_SEC →
      broker_entry now dq = none) ∧
    (3 ≤ dq.length → (∀ s ∈ dq, now - s.ts ≤ WINDOW_SEC) →
      broker_entry now dq =
        some { ssid := lastS.ssid,
               rssi := some (intTrunc (qmean (dq.map (fun s => s.rssi)))),
               ch := lastS.ch, side := sideOf dq,
               last_seen := lastS.ts }) ∧
    (∀ (xs : List ℤ) (k : ℤ), qmean xs = (k : ℚ) →
      intTrunc (qmean xs) = k) := by
  refine ⟨?_, ?_, ?_⟩
  · intro hub hstale
    have hall : ∀ s ∈ dq, (decide (now - s.ts > WINDOW_SEC)) = true := by
      intro s hs
      have h1 := hub s hs
      have h2 : now - s.ts > WINDOW_SEC := by
        unfold STALE_SEC at hstale
        unfold WINDOW_SEC
        linarith
      exact decide_eq_true h2
    simp only [broker_entry]
    rw [dropWhile_eq_nil_of_all _ dq hall]
    rfl
  · intro hlen hwin
    have hkeep : dq.dropWhile (fun s => decide (now - s.ts > WINDOW_SEC))
        = dq := by
      cases dq with
      | nil => rfl
      | cons a t =>
          apply dropWhile_eq_self_of_head
          have ha := hwin a (by simp)
          exact decide_eq_false (not_lt.mpr ha)
    have hmem : lastS ∈ dq := mem_of_getLast?_eq hlast
    have hstale : ¬(now - lastS.ts > STALE_SEC) := by
      have h1 := hwin lastS hmem
      unfold WINDOW_SEC at h1
      unfold STALE_SEC
      linarith
    have hne : dq ≠ [] := by
      intro h
      subst h
      exact Option.noConfusion hlast
    have hie : (dq.map (fun s => s.rssi)).isEmpty = false := by
      cases dq with
      | nil => exact absurd rfl hne
      | cons a t => rfl
    have hlen1 : 1 ≤ (dq.map (fun s => s.rssi)).length := by
      rw [List.length_map]
      omega
    have hmax : max (dq.map (fun s => s.rssi)).length 1
        = (dq.map (fun s => s.rssi)).length := max_eq_left hlen1
    simp only [broker_entry, hkeep, hlast]
    rw [if_neg hstale]
    simp [hie, qmean]
    refine ⟨hne, ?_⟩
    have hlenQ : (1 : ℚ) ≤ (dq.length : ℚ) := by
      have h1 : 1 ≤ dq.length := by omega
      exact_mod_cast h1
    rw [max_eq_left hlenQ]
    rfl
  · intro xs k h
    rw [h]
    unfold intTrunc
    split <;> simp

/-- The three-sample window used in the C7 witness. -/
def meanDq : List BSample :=
  [{ ts := 9, node := "1", rssi := -50, ch := none, ssid := "x" },
   { ts := 9, node := "2", rssi := -50, ch := none, ssid := "x" },
   { ts := 9, node := "3", rssi := -50, ch := none, ssid := "x" }]

/-- Witness for C7 (amended): three in-window samples of -50 dBm are
reported with smoothed strength `int(mean) = -50`. -/
theorem broker_tracker_snapshot_witness :
    meanDq.getLast? =
      some { ts := 9, node := "3", rssi := -50, ch := none, ssid := "x" } ∧
    3 ≤ meanDq.length ∧ (∀ s ∈ meanDq, (10 : ℚ) - s.ts ≤ WINDOW_SEC) ∧
    broker_entry 10 meanDq =
      some { ssid := "x",
             rssi := some (intTrunc (qmean (meanDq.map (fun s => s.rssi)))),
             ch := none, side := sideOf meanDq, last_seen := 9 } := by
  have hwin : ∀ s ∈ meanDq, (10 : ℚ) - s.ts ≤ WINDOW_SEC := by
    intro s hs
    simp [meanDq] at hs
    rcases hs with h | h | h <;> subst h <;> norm_num [WINDOW_SEC]
  refine ⟨by rfl, by simp [meanDq], hwin, ?_⟩
  exact (broker_tracker_snapshot 10 meanDq
    { ts := 9, node := "3", rssi := -50, ch := none, ssid := "x" }
    (by rfl)).2.1 (by simp [meanDq]) hwin

end WifiProm
